import Mathlib

/-!
Shallow embedding of the batch-sizing, file-splitting, CLI-validation and
insert-pipeline logic of the odbc2parquet repository
(src/query/batch_size_limit.rs, src/main.rs, src/insert.rs).

Machine integers (`usize`, `u32`, `u64`) are modelled as `Nat`; the byte
sizes handled here stay far below `2^32`, so wrap-around never occurs in
the modelled code paths.  Rust's integer division panics when the divisor
is zero; we model that panic as `Option.none`, so the embedded
`batch_size_in_rows` returns `Option (Except BatchError Nat)`:
`none` is a panic, `some (.error e)` an `anyhow` error, `some (.ok n)` a
normal result.
-/

/-- `bytesize::ByteSize` is a thin wrapper around a `u64` count of bytes;
its `Ord` instance compares the byte counts, so we model it as `Nat`. -/
abbrev ByteSize := Nat

/-- `ByteSize::gib(n)`: `n * 1024^3` bytes. -/
def ByteSize.gib (n : Nat) : ByteSize := n * 1073741824

/-- Rust integer division `a / b`: panics (modelled as `none`) when `b = 0`. -/
def rustDiv (a b : Nat) : Option Nat := if b = 0 then none else some (a / b)

/-- `DEFAULT_BATCH_SIZE_BYTES` from src/query/batch_size_limit.rs: selected
by `cfg(target_pointer_width)`, 2 GiB on 64-bit targets, 1 GiB on 32-bit
targets.  The compile-time configuration is a `Bool` parameter here. -/
def DEFAULT_BATCH_SIZE_BYTES (pointer_width_64 : Bool) : ByteSize :=
  if pointer_width_64 then ByteSize.gib 2 else ByteSize.gib 1

/-- `DEFAULT_BATCH_SIZE_ROWS` from src/query/batch_size_limit.rs. -/
def DEFAULT_BATCH_SIZE_ROWS : Nat := 65535

/-- `FileSizeLimit` from src/query/batch_size_limit.rs. -/
inductive FileSizeLimit where
  | None
  | RowGroups (row_groups : Nat)
  | Size (size : ByteSize)
  | Both (row_groups : Nat) (size : ByteSize)
deriving DecidableEq

/-- `FileSizeLimit::new`.  Note it never constructs `RowGroups 0` or
`Both 0 _`: a zero `num_row_groups` yields `None` or `Size`. -/
def FileSizeLimit.new (num_row_groups : Nat) (file_size_threshold : Option ByteSize) :
    FileSizeLimit :=
  match num_row_groups, file_size_threshold with
  | 0, none => .None
  | 0, some size => .Size size
  | row_groups, none => .RowGroups row_groups
  | row_groups, some size => .Both row_groups size

/-- `FileSizeLimit::output_is_splitted`. -/
def FileSizeLimit.output_is_splitted (l : FileSizeLimit) : Bool :=
  match l with
  | .None => false
  | _ => true

/-- `FileSizeLimit::should_start_new_file`.  The `%` in the source is Rust
`u32` remainder, which panics for a zero divisor; `FileSizeLimit::new`
never produces a zero `row_groups` field, so the remainder is only ever
taken with a positive divisor and we use total `Nat.mod`, carrying the
positivity as a hypothesis in the theorems below. -/
def FileSizeLimit.should_start_new_file (l : FileSizeLimit) (num_batch : Nat)
    (current_file_size : ByteSize) : Bool :=
  match l with
  | .None => false
  | .RowGroups row_groups => num_batch != 0 && num_batch % row_groups == 0
  | .Size size => decide (size ≤ current_file_size)
  | .Both row_groups size =>
      (num_batch != 0 && num_batch % row_groups == 0) || decide (size ≤ current_file_size)

/-- `BatchSizeLimit` from src/query/batch_size_limit.rs. -/
inductive BatchSizeLimit where
  | Rows (rows : Nat)
  | Bytes (memory : ByteSize)
  | Both (rows : Nat) (memory : ByteSize)
deriving DecidableEq

/-- `BatchSizeLimit::new`.  `pointer_width_64` stands for the compile-time
`cfg(target_pointer_width)` selection of `DEFAULT_BATCH_SIZE_BYTES`. -/
def BatchSizeLimit.new (pointer_width_64 : Bool) (num_rows_limit : Option Nat)
    (memory_limit : Option ByteSize) : BatchSizeLimit :=
  match num_rows_limit, memory_limit with
  | some rows, none => .Rows rows
  | none, some memory => .Bytes memory
  | none, none => .Both DEFAULT_BATCH_SIZE_ROWS (DEFAULT_BATCH_SIZE_BYTES pointer_width_64)
  | some rows, some memory => .Both rows memory

/-- The `bail!` error raised by the `to_num_rows` closure inside
`BatchSizeLimit::batch_size_in_rows`, carrying the two values interpolated
into its format string. -/
inductive BatchError where
  | insufficientMemoryBudget (num_bytes : Nat) (mem_per_row : Nat)
deriving DecidableEq

/-- The rendered error message of the `bail!` in `batch_size_in_rows`
(the trailing advisory sentences of the source message, which interpolate
no values, are elided). -/
def BatchError.message : BatchError → String
  | .insufficientMemoryBudget num_bytes mem_per_row =>
      "Memory required to hold a single row is larger than the limit. Memory Limit: " ++
        toString num_bytes ++ " bytes, Memory per row: " ++ toString mem_per_row ++ " bytes."

/-- The `to_num_rows` closure of `BatchSizeLimit::batch_size_in_rows`:
divide the byte budget by the per-row cost (a panic for a zero per-row
cost, per `rustDiv`), failing when the quotient is zero. -/
def to_num_rows (num_bytes : Nat) (total_mem_usage_per_row : Nat) :
    Option (Except BatchError Nat) :=
  match rustDiv num_bytes total_mem_usage_per_row with
  | none => none
  | some rows =>
      if rows = 0 then
        some (.error (.insufficientMemoryBudget num_bytes total_mem_usage_per_row))
      else
        some (.ok rows)

/-- `BatchSizeLimit::batch_size_in_rows`.  The `memory.as_u64().try_into()`
conversions are identities in the `Nat` model. -/
def BatchSizeLimit.batch_size_in_rows (limit : BatchSizeLimit)
    (total_mem_usage_per_row : Nat) : Option (Except BatchError Nat) :=
  match limit with
  | .Rows rows => some (.ok rows)
  | .Bytes memory => to_num_rows memory total_mem_usage_per_row
  | .Both rows memory =>
      match to_num_rows memory total_mem_usage_per_row with
      | none => none
      | some (.error e) => some (.error e)
      | some (.ok limit_rows) => some (.ok (Nat.min limit_rows rows))

/-- `insert_statement_text` from src/insert.rs: join the column names with
comma-space, one `?` placeholder per column, no quoting or escaping. -/
def insert_statement_text (table : String) (column_names : List String) : String :=
  let columns := String.intercalate ", " column_names
  let values := String.intercalate ", " (column_names.map (fun _ => "?"))
  "INSERT INTO " ++ table ++ " (" ++ columns ++ ") VALUES (" ++ values ++ ");"

/-- The statement text as the spec states it: table name, names joined by
comma-space, and exactly one question mark per column (a placeholder list
of length `column_names.length`), no quoting or escaping. -/
def insertStatementSpec (table : String) (column_names : List String) : String :=
  "INSERT INTO " ++ table ++ " (" ++ String.intercalate ", " column_names ++
    ") VALUES (" ++ String.intercalate ", " (List.replicate column_names.length "?") ++ ");"

/-- The externally visible actions the `insert` function of src/insert.rs
performs, in order: opening the ODBC connection, opening the parquet
input, deriving the per-column ODBC buffer descriptions, preparing the
insert statement, allocating a column inserter buffer of a given row
capacity, and executing the prepared statement for a row group of a given
row count.  (Per-column value copies carry no claim and are not traced.) -/
inductive InsertEvent where
  | openConnection
  | openFile
  | deriveBufferDescriptions
  | prepareStatement (text : String)
  | allocateBuffer (capacity : Nat)
  | execute (num_rows : Nat)
deriving DecidableEq

/-- One iteration of the row-group loop of `insert` (src/insert.rs lines
54-84): the state is the current buffer capacity (`batch_size`) and the
event trace; if the row group's row count exceeds the capacity, the
statement is prepared again and a buffer of exactly that row count is
allocated; then the statement is executed for the row group. -/
def insertRowGroupStep (stmt_text : String) (s : Nat × List InsertEvent)
    (num_rows : Nat) : Nat × List InsertEvent :=
  if s.1 < num_rows then
    (num_rows, s.2 ++ [.prepareStatement stmt_text, .allocateBuffer num_rows,
      .execute num_rows])
  else
    (s.1, s.2 ++ [.execute num_rows])

/-- The `insert` function of src/insert.rs, abstracted to the sizes of the
row groups of the input file: open the connection and the file, derive the
buffer descriptions, prepare the statement, allocate the transfer buffer
at capacity 1, then run the row-group loop.  External collaborators are
modelled on their success path; any of their failures aborts the run
before the remaining events. -/
def Src.insert (table : String) (column_names : List String)
    (row_group_sizes : List Nat) : Nat × List InsertEvent :=
  row_group_sizes.foldl (insertRowGroupStep (insert_statement_text table column_names))
    (1, [.openConnection, .openFile, .deriveBufferDescriptions,
         .prepareStatement (insert_statement_text table column_names), .allocateBuffer 1])

/-- `io_arg::IoArg`: an output designating a file path or the standard
stream (`-`). -/
inductive IoArg where
  | file (path : String)
  | stdStream
deriving DecidableEq

/-- `IoArg::is_file`. -/
def IoArg.is_file : IoArg → Bool
  | .file _ => true
  | .stdStream => false

/-- The fields of `QueryOpt` (src/model.rs) that
`Cli::perform_extra_validation` reads, plus the two batch-size options for
context; the remaining CLI fields never influence the modelled logic. -/
structure QueryOpt where
  batch_size_row : Option Nat
  batch_size_memory : Option ByteSize
  row_groups_per_file : Nat
  file_size_threshold : Option ByteSize
  output : IoArg
deriving DecidableEq

/-- The `Command` subcommand enum of src/main.rs (the `unfinished`-feature
`Exec` variant is compiled out). -/
inductive Command where
  | query (query_opt : QueryOpt)
  | listDrivers
  | listDataSources
  | insert
  | completions
deriving DecidableEq

/-- The `Cli` struct of src/main.rs; the logging flags are not read by
`perform_extra_validation`. -/
structure Cli where
  command : Command
deriving DecidableEq

/-- The two `bail!` errors of `Cli::perform_extra_validation`. -/
inductive ValidationError where
  | fileSizeThresholdConflictsWithStdout
  | rowGroupsPerFileConflictsWithStdout
deriving DecidableEq

/-- `Cli::perform_extra_validation` from src/main.rs. -/
def Cli.perform_extra_validation (cli : Cli) : Except ValidationError Unit :=
  match cli.command with
  | .query query_opt =>
      if !query_opt.output.is_file then
        if query_opt.file_size_threshold.isSome then
          .error .fileSizeThresholdConflictsWithStdout
        else if query_opt.row_groups_per_file != 0 then
          .error .rowGroupsPerFileConflictsWithStdout
        else
          .ok ()
      else
        .ok ()
  | _ => .ok ()

theorem to_num_rows_pos (M B : Nat) (hB : 0 < B) (h1 : 1 ≤ M / B) :
    to_num_rows M B = some (Except.ok (M / B)) := by
  unfold to_num_rows rustDiv
  simp [hB.ne', Nat.pos_of_ne_zero, Nat.not_eq_zero_of_lt h1]

theorem to_num_rows_zero (M B : Nat) (hB : 0 < B) (h0 : M / B = 0) :
    to_num_rows M B = some (Except.error (BatchError.insufficientMemoryBudget M B)) := by
  unfold to_num_rows rustDiv
  simp [hB.ne', h0]

/-- Claim C1: for every positive `bytesPerRow` `B`, `batch_size_in_rows`
on a `Rows R` limit returns `R`; on a `Bytes M` limit it returns the
integer quotient `M / B` whenever that quotient is at least 1; on a
`Both R M` limit it returns `min R (M / B)` under the same proviso, and
it fails exactly when `M / B` computes to zero. -/
theorem batch_size_in_rows_limits (R M B : Nat) (hB : 0 < B) :
    (BatchSizeLimit.Rows R).batch_size_in_rows B = some (Except.ok R) ∧
    (1 ≤ M / B → (BatchSizeLimit.Bytes M).batch_size_in_rows B = some (Except.ok (M / B))) ∧
    (1 ≤ M / B → (BatchSizeLimit.Both R M).batch_size_in_rows B =
      some (Except.ok (Nat.min R (M / B)))) ∧
    ((∃ e, (BatchSizeLimit.Both R M).batch_size_in_rows B = some (Except.error e)) ↔
      M / B = 0) := by
  refine ⟨rfl, ?_, ?_, ?_⟩
  · intro h1
    simp [BatchSizeLimit.batch_size_in_rows, to_num_rows_pos M B hB h1]
  · intro h1
    simp [BatchSizeLimit.batch_size_in_rows, to_num_rows_pos M B hB h1, Nat.min_comm]
  · constructor
    · rintro ⟨e, he⟩
      by_contra h0
      have h1 : 1 ≤ M / B := Nat.pos_of_ne_zero h0
      simp [BatchSizeLimit.batch_size_in_rows, to_num_rows_pos M B hB h1] at he
    · intro h0
      exact ⟨BatchError.insufficientMemoryBudget M B,
        by simp [BatchSizeLimit.batch_size_in_rows, to_num_rows_zero M B hB h0]⟩

theorem batch_size_in_rows_limits_witness :
    (BatchSizeLimit.Rows 10).batch_size_in_rows 7 = some (Except.ok 10) ∧
    (BatchSizeLimit.Bytes 100).batch_size_in_rows 7 = some (Except.ok 14) ∧
    (BatchSizeLimit.Both 10 100).batch_size_in_rows 7 = some (Except.ok 10) ∧
    (∃ e, (BatchSizeLimit.Both 10 3).batch_size_in_rows 7 = some (Except.error e)) := by
  obtain ⟨ha, hb, hc, -⟩ := batch_size_in_rows_limits 10 100 7 (by decide)
  obtain ⟨-, -, -, hd⟩ := batch_size_in_rows_limits 10 3 7 (by decide)
  exact ⟨ha, by simpa using hb (by decide), by simpa using hc (by decide),
    hd.mpr (by decide)⟩

/-- Claim C2: for a `RowGroups N` limit with positive `N`,
`should_start_new_file count size` is true exactly when `count` is
non-zero and divisible by `N`, for every byte size argument; with `N = 3`
the counts 0..6 yield false, false, false, true, false, false, true. -/
theorem should_start_new_file_row_groups :
    (∀ (N count size : Nat), 0 < N →
      ((FileSizeLimit.RowGroups N).should_start_new_file count size = true ↔
        count ≠ 0 ∧ count % N = 0)) ∧
    (∀ size : Nat,
      [0, 1, 2, 3, 4, 5, 6].map
          (fun c => (FileSizeLimit.RowGroups 3).should_start_new_file c size) =
        [false, false, false, true, false, false, true]) := by
  constructor
  · intro N count size _
    simp [FileSizeLimit.should_start_new_file]
  · intro size
    simp [FileSizeLimit.should_start_new_file]

theorem should_start_new_file_row_groups_witness :
    (FileSizeLimit.RowGroups 3).should_start_new_file 6 0 = true ∧
    [0, 1, 2, 3, 4, 5, 6].map
        (fun c => (FileSizeLimit.RowGroups 3).should_start_new_file c 0) =
      [false, false, false, true, false, false, true] :=
  ⟨(should_start_new_file_row_groups.1 3 6 0 (by decide)).mpr (by decide),
    should_start_new_file_row_groups.2 0⟩

/-- Claim C4: for positive `B`, `batch_size_in_rows` under a memory limit
(alone or combined) errs exactly when `M / B = 0`, the error is the
insufficient-memory-budget error carrying the byte budget `M` and the
per-row cost `B`, whose rendered message contains both numbers; under a
pure row limit it never fails. -/
theorem batch_size_in_rows_error_iff (R M B : Nat) (hB : 0 < B) :
    (∀ e, (BatchSizeLimit.Rows R).batch_size_in_rows B ≠ some (Except.error e)) ∧
    ((BatchSizeLimit.Bytes M).batch_size_in_rows B =
        some (Except.error (BatchError.insufficientMemoryBudget M B)) ↔ M / B = 0) ∧
    ((BatchSizeLimit.Both R M).batch_size_in_rows B =
        some (Except.error (BatchError.insufficientMemoryBudget M B)) ↔ M / B = 0) ∧
    (∀ e, (BatchSizeLimit.Bytes M).batch_size_in_rows B = some (Except.error e) →
      e = BatchError.insufficientMemoryBudget M B) ∧
    (∃ s₁ s₂ s₃, (BatchError.insufficientMemoryBudget M B).message =
      s₁ ++ toString M ++ s₂ ++ toString B ++ s₃) := by
  refine ⟨?_, ?_, ?_, ?_, ?_⟩
  · intro e
    simp [BatchSizeLimit.batch_size_in_rows]
  · constructor
    · intro he
      by_contra h0
      have h1 : 1 ≤ M / B := Nat.pos_of_ne_zero h0
      simp [BatchSizeLimit.batch_size_in_rows, to_num_rows_pos M B hB h1] at he
    · intro h0
      simp [BatchSizeLimit.batch_size_in_rows, to_num_rows_zero M B hB h0]
  · constructor
    · intro he
      by_contra h0
      have h1 : 1 ≤ M / B := Nat.pos_of_ne_zero h0
      simp [BatchSizeLimit.batch_size_in_rows, to_num_rows_pos M B hB h1] at he
    · intro h0
      simp [BatchSizeLimit.batch_size_in_rows, to_num_rows_zero M B hB h0]
  · intro e he
    rcases Nat.eq_zero_or_pos (M / B) with h0 | h1
    · have := to_num_rows_zero M B hB h0
      simp [BatchSizeLimit.batch_size_in_rows, this] at he
      exact he.symm
    · simp [BatchSizeLimit.batch_size_in_rows, to_num_rows_pos M B hB h1] at he
  · exact ⟨"Memory required to hold a single row is larger than the limit. Memory Limit: ",
      " bytes, Memory per row: ", " bytes.", rfl⟩

theorem batch_size_in_rows_error_iff_witness :
    (BatchSizeLimit.Bytes 3).batch_size_in_rows 7 =
      some (Except.error (BatchError.insufficientMemoryBudget 3 7)) ∧
    (∃ s₁ s₂ s₃, (BatchError.insufficientMemoryBudget 3 7).message =
      s₁ ++ toString 3 ++ s₂ ++ toString 7 ++ s₃) := by
  obtain ⟨-, hb, -, -, hm⟩ := batch_size_in_rows_error_iff 10 3 7 (by decide)
  exact ⟨hb.mpr (by decide), hm⟩

/-- Claim C5: `should_start_new_file` on the unbounded limit is always
false; on a pure `Size S` bound it is true exactly when the current file
size has reached the threshold `S`; on `Both N S` (positive `N`) it is the
logical OR of the row-group condition and the size condition. -/
theorem should_start_new_file_cases (count size N S : Nat) (_hN : 0 < N) :
    FileSizeLimit.None.should_start_new_file count size = false ∧
    ((FileSizeLimit.Size S).should_start_new_file count size = true ↔ S ≤ size) ∧
    ((FileSizeLimit.Both N S).should_start_new_file count size = true ↔
      (count ≠ 0 ∧ count % N = 0) ∨ S ≤ size) := by
  refine ⟨rfl, ?_, ?_⟩
  · simp [FileSizeLimit.should_start_new_file]
  · simp [FileSizeLimit.should_start_new_file]

theorem should_start_new_file_cases_witness :
    FileSizeLimit.None.should_start_new_file 5 2000 = false ∧
    (FileSizeLimit.Size 1000).should_start_new_file 5 2000 = true ∧
    (FileSizeLimit.Both 3 1000).should_start_new_file 5 2000 = true := by
  obtain ⟨ha, hb, hc⟩ := should_start_new_file_cases 5 2000 3 1000 (by decide)
  exact ⟨ha, hb.mpr (by decide), hc.mpr (Or.inr (by decide))⟩

/-- Claim C6: `perform_extra_validation` succeeds exactly unless the
command is a query whose output is not a file and which sets a file-size
threshold or a non-zero `row_groups_per_file`; in particular it succeeds
for every query writing to a file and for every non-query command. -/
theorem perform_extra_validation_ok_iff (cli : Cli) :
    cli.perform_extra_validation = Except.ok () ↔
      ∀ q, cli.command = Command.query q →
        q.output.is_file = true ∨
          (q.file_size_threshold = none ∧ q.row_groups_per_file = 0) := by
  cases cli with
  | mk command =>
    cases command with
    | query q =>
      constructor
      · intro hok q' hq'
        injection hq' with hq'
        subst hq'
        by_cases hf : q.output.is_file = true
        · exact Or.inl hf
        · refine Or.inr ?_
          simp only [Cli.perform_extra_validation, hf, Bool.not_false, if_true] at hok
          rcases hth : q.file_size_threshold with - | th
          · rcases hrg : q.row_groups_per_file with - | n
            · exact ⟨rfl, rfl⟩
            · rw [Bool.not_eq_true] at hf
              simp [Cli.perform_extra_validation, hf, hth, hrg] at hok
          · rw [Bool.not_eq_true] at hf
            simp [Cli.perform_extra_validation, hf, hth] at hok
      · intro h
        rcases h q rfl with hf | ⟨hth, hrg⟩
        · simp [Cli.perform_extra_validation, hf]
        · simp [Cli.perform_extra_validation, hth, hrg]
    | listDrivers => simp [Cli.perform_extra_validation]
    | listDataSources => simp [Cli.perform_extra_validation]
    | insert => simp [Cli.perform_extra_validation]
    | completions => simp [Cli.perform_extra_validation]

theorem perform_extra_validation_ok_iff_witness :
    (Cli.mk (Command.query
        (QueryOpt.mk none none 0 (some 1000) IoArg.stdStream))).perform_extra_validation ≠
      Except.ok () ∧
    (Cli.mk (Command.query
        (QueryOpt.mk none none 4 none (IoArg.file "out.par")))).perform_extra_validation =
      Except.ok () ∧
    (Cli.mk Command.insert).perform_extra_validation = Except.ok () := by
  refine ⟨?_, ?_, ?_⟩
  · intro hok
    have h := (perform_extra_validation_ok_iff
      (Cli.mk (Command.query (QueryOpt.mk none none 0 (some 1000) IoArg.stdStream)))).mp hok
    rcases h _ rfl with hf | ⟨hth, -⟩
    · exact absurd hf (by decide)
    · exact absurd hth (by decide)
  · exact (perform_extra_validation_ok_iff
      (Cli.mk (Command.query (QueryOpt.mk none none 4 none (IoArg.file "out.par"))))).mpr
      (by intro q hq; injection hq with hq; subst hq; exact Or.inl rfl)
  · exact (perform_extra_validation_ok_iff (Cli.mk Command.insert)).mpr
      (by intro q hq; cases hq)

/-- Claim C7 counterexample: with no configured limits on a 64-bit target
and a per-row cost of 2147483649 bytes (one more than the 2 GiB default
budget), `batch_size_in_rows` fails with the insufficient-memory-budget
error instead of returning `min 65535 (defaultBytes / B) = 0` as the claim
states for every positive `B`. -/
theorem batch_size_defaults_counterexample :
    (BatchSizeLimit.new true none none).batch_size_in_rows 2147483649 =
      some (Except.error (BatchError.insufficientMemoryBudget 2147483648 2147483649)) ∧
    (BatchSizeLimit.new true none none).batch_size_in_rows 2147483649 ≠
      some (Except.ok (Nat.min 65535 (DEFAULT_BATCH_SIZE_BYTES true / 2147483649))) := by
  have h : (BatchSizeLimit.new true none none).batch_size_in_rows 2147483649 =
      some (Except.error (BatchError.insufficientMemoryBudget 2147483648 2147483649)) := by
    rfl
  refine ⟨h, ?_⟩
  rw [h]
  intro hc
  injection hc with hc
  simp at hc

/-- Claim C7 (amended): with neither limit configured, `new` applies the
documented defaults — 65535 rows and 2 GiB on 64-bit targets (1 GiB on
32-bit targets) — combined by the minimum rule, so for every positive
per-row cost `B` whose default-budget quotient is at least one row,
`batch_size_in_rows` returns `min 65535 (defaultBytes / B)`; when that
quotient is zero it instead fails with the insufficient-memory-budget
error. -/
theorem batch_size_defaults (w : Bool) (B : Nat) (hB : 0 < B) :
    DEFAULT_BATCH_SIZE_ROWS = 65535 ∧
    DEFAULT_BATCH_SIZE_BYTES true = 2147483648 ∧
    DEFAULT_BATCH_SIZE_BYTES false = 1073741824 ∧
    BatchSizeLimit.new w none none =
      BatchSizeLimit.Both 65535 (DEFAULT_BATCH_SIZE_BYTES w) ∧
    (1 ≤ DEFAULT_BATCH_SIZE_BYTES w / B →
      (BatchSizeLimit.new w none none).batch_size_in_rows B =
        some (Except.ok (Nat.min 65535 (DEFAULT_BATCH_SIZE_BYTES w / B)))) ∧
    (DEFAULT_BATCH_SIZE_BYTES w / B = 0 →
      (BatchSizeLimit.new w none none).batch_size_in_rows B =
        some (Except.error
          (BatchError.insufficientMemoryBudget (DEFAULT_BATCH_SIZE_BYTES w) B))) := by
  refine ⟨rfl, rfl, rfl, rfl, ?_, ?_⟩
  · intro h1
    simp [BatchSizeLimit.new, BatchSizeLimit.batch_size_in_rows,
      to_num_rows_pos (DEFAULT_BATCH_SIZE_BYTES w) B hB h1, DEFAULT_BATCH_SIZE_ROWS,
      Nat.min_comm]
  · intro h0
    simp [BatchSizeLimit.new, BatchSizeLimit.batch_size_in_rows,
      to_num_rows_zero (DEFAULT_BATCH_SIZE_BYTES w) B hB h0]

theorem batch_size_defaults_witness :
    (BatchSizeLimit.new true none none).batch_size_in_rows 4096 =
      some (Except.ok (Nat.min 65535 (DEFAULT_BATCH_SIZE_BYTES true / 4096))) :=
  (batch_size_defaults true 4096 (by decide)).2.2.2.2.1 (by decide)

/-- Claim C9: `batch_size_in_rows` has no zero guard on its divisor:
under a limit involving a memory budget a zero `bytesPerRow` panics
(modelled `none`) rather than returning an error, and a positive
`bytesPerRow` never panics; under a pure row limit the argument is never
inspected, so the result is `ok rows` for every value of it. -/
theorem batch_size_in_rows_zero_divisor (R M B : Nat) :
    (BatchSizeLimit.Rows R).batch_size_in_rows B = some (Except.ok R) ∧
    (BatchSizeLimit.Bytes M).batch_size_in_rows 0 = none ∧
    (BatchSizeLimit.Both R M).batch_size_in_rows 0 = none ∧
    (0 < B →
      (BatchSizeLimit.Bytes M).batch_size_in_rows B ≠ none ∧
      (BatchSizeLimit.Both R M).batch_size_in_rows B ≠ none) := by
  refine ⟨rfl, ?_, ?_, ?_⟩
  · simp [BatchSizeLimit.batch_size_in_rows, to_num_rows, rustDiv]
  · simp [BatchSizeLimit.batch_size_in_rows, to_num_rows, rustDiv]
  · intro hB
    rcases Nat.eq_zero_or_pos (M / B) with h0 | h1
    · constructor <;>
        simp [BatchSizeLimit.batch_size_in_rows, to_num_rows_zero M B hB h0]
    · constructor <;>
        simp [BatchSizeLimit.batch_size_in_rows, to_num_rows_pos M B hB h1]

theorem batch_size_in_rows_zero_divisor_witness :
    (BatchSizeLimit.Rows 9).batch_size_in_rows 0 = some (Except.ok 9) ∧
    (BatchSizeLimit.Bytes 100).batch_size_in_rows 0 = none ∧
    (BatchSizeLimit.Both 9 100).batch_size_in_rows 0 = none ∧
    (BatchSizeLimit.Bytes 100).batch_size_in_rows 8 ≠ none := by
  obtain ⟨ha, hb, hc, -⟩ := batch_size_in_rows_zero_divisor 9 100 0
  obtain ⟨-, -, -, hd⟩ := batch_size_in_rows_zero_divisor 9 100 8
  exact ⟨ha, hb, hc, (hd (by decide)).1⟩

theorem insertRowGroupStep_fst (t : String) (s : Nat × List InsertEvent) (n : Nat) :
    (insertRowGroupStep t s n).1 = Nat.max s.1 n := by
  unfold insertRowGroupStep
  by_cases h : s.1 < n
  · simp [h, Nat.max_eq_right (Nat.le_of_lt h)]
  · simp [h, Nat.max_eq_left (Nat.le_of_not_lt h)]

theorem insertRowGroupStep_snd (t : String) (s : Nat × List InsertEvent) (n : Nat) :
    (insertRowGroupStep t s n).2 =
      s.2 ++ (if s.1 < n then
          [InsertEvent.prepareStatement t, InsertEvent.allocateBuffer n, InsertEvent.execute n]
        else [InsertEvent.execute n]) := by
  unfold insertRowGroupStep
  by_cases h : s.1 < n <;> simp [h]

theorem insert_foldl_fst (t : String) (l : List Nat) :
    ∀ (c : Nat) (evs : List InsertEvent),
      (l.foldl (insertRowGroupStep t) (c, evs)).1 = l.foldl Nat.max c := by
  induction l with
  | nil => intro c evs; rfl
  | cons n l ih =>
    intro c evs
    simp only [List.foldl_cons]
    rcases hs : insertRowGroupStep t (c, evs) n with ⟨c', evs'⟩
    have hc' : c' = Nat.max c n := by
      have h := insertRowGroupStep_fst t (c, evs) n
      rw [hs] at h
      exact h
    rw [ih c' evs', hc']

/-- Claim C3: in the insert direction the transfer buffer starts at
capacity 1; after any prefix of row groups the capacity equals the
maximum of 1 and the largest row-group size seen, so it never shrinks;
processing one more row group of size `n` re-prepares the statement and
allocates a buffer of exactly `n` rows when `n` exceeds the current
capacity, and performs no reallocation when `n` is at most the current
capacity. -/
theorem insert_buffer_growth (table : String) (names : List String)
    (l : List Nat) (n : Nat) :
    (Src.insert table names l).1 = l.foldl Nat.max 1 ∧
    (Src.insert table names (l ++ [n])).1 = Nat.max (Src.insert table names l).1 n ∧
    (Src.insert table names l).1 ≤ (Src.insert table names (l ++ [n])).1 ∧
    (Src.insert table names (l ++ [n])).2 =
      (Src.insert table names l).2 ++
        (if (Src.insert table names l).1 < n then
            [InsertEvent.prepareStatement (insert_statement_text table names),
             InsertEvent.allocateBuffer n, InsertEvent.execute n]
          else [InsertEvent.execute n]) := by
  have hstep : Src.insert table names (l ++ [n]) =
      insertRowGroupStep (insert_statement_text table names) (Src.insert table names l) n := by
    unfold Src.insert
    rw [List.foldl_append]
    rfl
  refine ⟨insert_foldl_fst _ l 1 _, ?_, ?_, ?_⟩
  · rw [hstep]
    exact insertRowGroupStep_fst _ _ n
  · rw [hstep, insertRowGroupStep_fst _ _ n]
    exact Nat.le_max_left _ n
  · rw [hstep]
    exact insertRowGroupStep_snd _ _ n

theorem insert_buffer_growth_witness :
    (Src.insert "t" ["a"] [1, 50, 10]).1 = 50 ∧
    (Src.insert "t" ["a"] ([1, 50, 10] ++ [200])).1 = 200 ∧
    (Src.insert "t" ["a"] ([1, 50, 10] ++ [200])).2 =
      (Src.insert "t" ["a"] [1, 50, 10]).2 ++
        [InsertEvent.prepareStatement (insert_statement_text "t" ["a"]),
         InsertEvent.allocateBuffer 200, InsertEvent.execute 200] := by
  obtain ⟨h1, h2, -, h4⟩ := insert_buffer_growth "t" ["a"] [1, 50, 10] 200
  have hc : (Src.insert "t" ["a"] [1, 50, 10]).1 < 200 := by rw [h1]; decide
  refine ⟨by rw [h1]; decide, by rw [h2, h1]; decide, ?_⟩
  rw [h4, if_pos hc]

/-- Claim C8: the generated insert statement text is exactly
`INSERT INTO table (c1, c2, ..., cn) VALUES (?, ..., ?);` — the column
names joined by comma-space and one question-mark placeholder per column,
with no quoting or escaping of the table name or the column names. -/
theorem insert_statement_text_spec (table : String) (column_names : List String) :
    insert_statement_text table column_names = insertStatementSpec table column_names := by
  unfold insert_statement_text insertStatementSpec
  rw [List.map_const']

/-- Claim C10: for an input file with zero row groups, `insert` still
opens the connection and the file, derives the column buffer
descriptions, and prepares the insert statement, but allocates only the
initial one-row buffer and never executes the statement. -/
theorem insert_no_row_groups (table : String) (names : List String) :
    Src.insert table names [] =
      (1, [InsertEvent.openConnection, InsertEvent.openFile,
           InsertEvent.deriveBufferDescriptions,
           InsertEvent.prepareStatement (insert_statement_text table names),
           InsertEvent.allocateBuffer 1]) ∧
    ∀ n, InsertEvent.execute n ∉ (Src.insert table names []).2 := by
  refine ⟨rfl, ?_⟩
  intro n
  simp [Src.insert]

theorem insert_no_row_groups_witness :
    Src.insert "t" ["a", "b"] [] =
      (1, [InsertEvent.openConnection, InsertEvent.openFile,
           InsertEvent.deriveBufferDescriptions,
           InsertEvent.prepareStatement (insert_statement_text "t" ["a", "b"]),
           InsertEvent.allocateBuffer 1]) ∧
    InsertEvent.execute 3 ∉ (Src.insert "t" ["a", "b"] []).2 :=
  ⟨(insert_no_row_groups "t" ["a", "b"]).1, (insert_no_row_groups "t" ["a", "b"]).2 3⟩
